import Mathlib

/-
  Verification development for the Farcaster Mini contract-creator UI
  (src/src/App.jsx). The component's handlers are embedded as pure
  functions over an explicit session state. Wallet-provider behaviour
  (presence, switch/add outcomes, account list, transaction results)
  is an environment record; each handler returns the updated state and
  the ordered list of wallet requests it issued.
-/

namespace FarcasterMini

/-- Native currency descriptor of a network profile (`currency` field in CHAINS). -/
structure Currency where
  name : String
  symbol : String
  decimals : Nat
deriving DecidableEq, Repr

/-- One network profile, as declared in the `CHAINS` constant of App.jsx. -/
structure ChainCfg where
  chainIdHex : String
  chainIdDec : Nat
  name : String
  rpcUrls : List String
  blockExplorer : String
  currency : Currency
deriving DecidableEq, Repr

/-- The two keys of the `CHAINS` record. -/
inductive ChainKey
  | mainnet
  | sepolia
deriving DecidableEq, Repr

/-- The `CHAINS` constant of App.jsx. -/
def CHAINS : ChainKey → ChainCfg
  | ChainKey.mainnet =>
    { chainIdHex := "0x1"
      chainIdDec := 1
      name := "Ethereum Mainnet"
      rpcUrls := ["https://rpc.ankr.com/eth"]
      blockExplorer := "https://etherscan.io"
      currency := { name := "Ether", symbol := "ETH", decimals := 18 } }
  | ChainKey.sepolia =>
    { chainIdHex := "0xaa36a7"
      chainIdDec := 11155111
      name := "Sepolia Testnet"
      rpcUrls := ["https://rpc.ankr.com/eth_sepolia"]
      blockExplorer := "https://sepolia.etherscan.io"
      currency := { name := "Sepolia Ether", symbol := "SEP", decimals := 18 } }

/-- The `TEST_BYTECODE` constant of App.jsx. -/
def TEST_BYTECODE : String := "0x60006000f3"

/-- JS whitespace predicate used by `String.prototype.trim` (ECMA WhiteSpace
and LineTerminator code points occurring in practice). -/
def jsIsWhitespace (c : Char) : Bool :=
  c.toNat = 32 || c.toNat = 9 || c.toNat = 10 || c.toNat = 13 || c.toNat = 11 ||
  c.toNat = 12 || c.toNat = 160 || c.toNat = 65279 || c.toNat = 8232 || c.toNat = 8233

/-- JS `s.trim()`: drop leading and trailing whitespace. -/
def jsTrim (s : String) : String :=
  String.mk (((s.data.dropWhile jsIsWhitespace).reverse.dropWhile jsIsWhitespace).reverse)

/-- JS `s.length` (code-unit count; character count on the BMP strings used here). -/
def jsLength (s : String) : Nat := s.data.length

/-- JS `s.startsWith(pre)`. -/
def jsStartsWith (s pre : String) : Bool := pre.data.isPrefixOf s.data

/-- The React state variables of the component (SessionState in the spec). -/
structure SessionState where
  account : Option String
  status : String
  bytecode : String
  txHash : String
  contractAddress : String
  currentChainId : Option Nat
  target : ChainKey
deriving DecidableEq, Repr

/-- A request issued to the wallet provider or the signing library. -/
inductive WalletRequest
  | switchChain (chainIdHex : String)
  | addChain (chainId : String) (chainName : String) (nativeCurrency : Currency)
      (rpcUrls : List String) (blockExplorerUrls : List String)
  | requestAccounts
  | sendTransaction (data : String) (gasLimit : Nat)
deriving DecidableEq, Repr

/-- True exactly on add-chain requests. -/
def isAddChain : WalletRequest → Bool
  | WalletRequest.addChain _ _ _ _ _ => true
  | _ => false

/-- Environment: the provider's presence and the outcome of each request
the handlers may issue. A switch failure carries the numeric error code
when the thrown error has one (`err.code` may be absent in JS). -/
structure Env where
  hasProvider : Bool
  switchResult : ChainKey → Except (Option Int) Unit
  addResult : ChainKey → Bool
  accountsResult : Except String (List String)
  sendTxResult : Except String String
  waitResult : Except String (Option String)

/-- `ensureNetwork(chainKey)` from App.jsx: try a switch; on error code 4902
issue an add-chain request with the full profile; return success/failure. -/
def ensureNetwork (env : Env) (st : SessionState) (chainKey : ChainKey) :
    SessionState × List WalletRequest × Bool :=
  if env.hasProvider = false then
    ({ st with status := "MetaMask non détecté." }, [], false)
  else
    let cfg := CHAINS chainKey
    match env.switchResult chainKey with
    | Except.ok _ =>
        ({ st with status := "Réseau basculé sur " ++ cfg.name ++ "." },
         [WalletRequest.switchChain cfg.chainIdHex], true)
    | Except.error code =>
        if code = some 4902 then
          if env.addResult chainKey then
            ({ st with status := "Réseau " ++ cfg.name ++ " ajouté et sélectionné." },
             [WalletRequest.switchChain cfg.chainIdHex,
              WalletRequest.addChain cfg.chainIdHex cfg.name cfg.currency cfg.rpcUrls
                [cfg.blockExplorer]], true)
          else
            ({ st with status := "Ajout de réseau refusé dans MetaMask." },
             [WalletRequest.switchChain cfg.chainIdHex,
              WalletRequest.addChain cfg.chainIdHex cfg.name cfg.currency cfg.rpcUrls
                [cfg.blockExplorer]], false)
        else
          ({ st with status := "Changement de réseau refusé dans MetaMask." },
           [WalletRequest.switchChain cfg.chainIdHex], false)

/-- Whether `ensureNetwork` succeeds, as a function of the environment only. -/
def ensureOk (env : Env) (k : ChainKey) : Bool :=
  env.hasProvider &&
    (match env.switchResult k with
     | Except.ok _ => true
     | Except.error c => decide (c = some 4902) && env.addResult k)

/-- `connectWallet()` from App.jsx: provider check, `ensureNetwork(target)`,
then `eth_requestAccounts`; the first returned account becomes the identity. -/
def connectWallet (env : Env) (st : SessionState) : SessionState × List WalletRequest :=
  if env.hasProvider = false then
    ({ st with status := "MetaMask n\x27est pas détecté. Installe-le d\x27abord." }, [])
  else
    let r := ensureNetwork env st st.target
    if r.2.2 = false then (r.1, r.2.1)
    else
      match env.accountsResult with
      | Except.error msg =>
          ({ r.1 with status := "Erreur connexion: " ++ msg },
           r.2.1 ++ [WalletRequest.requestAccounts])
      | Except.ok accounts =>
          ({ r.1 with account := accounts.head?, status := "Wallet connecté." },
           r.2.1 ++ [WalletRequest.requestAccounts])

/-- `fillTestBytecode()` from App.jsx. -/
def fillTestBytecode (st : SessionState) : SessionState :=
  { st with bytecode := TEST_BYTECODE
            status := "Bytecode de test inséré (contrat vide). Tu peux déployer." }

/-- `deployContract()` from App.jsx: clear status/txHash/contractAddress,
check provider and payload, force `ensureNetwork("sepolia")`, normalize the
payload to a 0x prefix, submit with gasLimit 70000, record the hash, await
confirmation, report; any throw is caught into an error status. -/
def deployContract (env : Env) (st : SessionState) : SessionState × List WalletRequest :=
  let st0 := { st with status := "", txHash := "", contractAddress := "" }
  if env.hasProvider = false then
    ({ st0 with status := "MetaMask requis." }, [])
  else if st0.bytecode = "" ∨ jsLength (jsTrim st0.bytecode) < 4 then
    ({ st0 with status :=
        "Colle un creation bytecode valide (0x...), ou clique \x27Remplir un bytecode de test\x27." },
     [])
  else
    let r := ensureNetwork env st0 ChainKey.sepolia
    if r.2.2 = false then (r.1, r.2.1)
    else
      let dataHex := if jsStartsWith st0.bytecode ("0x") then st0.bytecode
                     else "0x" ++ st0.bytecode
      let st2 := { r.1 with status := "Préparation de la transaction… vérifie MetaMask." }
      match env.sendTxResult with
      | Except.error msg =>
          ({ st2 with status := "Erreur: " ++ msg },
           r.2.1 ++ [WalletRequest.sendTransaction dataHex 70000])
      | Except.ok h =>
        let st3 := { st2 with txHash := h
                              status := "Transaction envoyée. Attente de confirmation…" }
        match env.waitResult with
        | Except.error msg =>
            ({ st3 with status := "Erreur: " ++ msg },
             r.2.1 ++ [WalletRequest.sendTransaction dataHex 70000])
        | Except.ok addrOpt =>
          let addr := addrOpt.getD ("")
          ({ st3 with contractAddress := addr
                      status :=
                        if addr = "" then
                          "Confirmé, mais pas d\x27adresse de contrat (bytecode probablement non-créateur)."
                        else "Confirmé ✅ Contrat déployé à " ++ addr },
           r.2.1 ++ [WalletRequest.sendTransaction dataHex 70000])

/-- The Reset button's onClick handler in App.jsx. -/
def resetSession (st : SessionState) : SessionState :=
  { st with bytecode := "", status := "", txHash := "", contractAddress := "" }

/-- The Disconnect button's onClick handler in App.jsx: purely local state
updates, no provider request. -/
def disconnectWallet (st : SessionState) : SessionState × List WalletRequest :=
  ({ st with account := none, status := "Déconnecté." }, [])

/-- The `explorerBase` memo of App.jsx. -/
def explorerBase (currentChainId : Option Nat) (target : ChainKey) : String :=
  if currentChainId = some (CHAINS ChainKey.sepolia).chainIdDec then
    (CHAINS ChainKey.sepolia).blockExplorer
  else if currentChainId = some (CHAINS ChainKey.mainnet).chainIdDec then
    (CHAINS ChainKey.mainnet).blockExplorer
  else (CHAINS target).blockExplorer

/-! ### Characterization lemmas -/

/-- The requests `ensureNetwork` issues, as a function of the environment only. -/
def ensureTrace (env : Env) (k : ChainKey) : List WalletRequest :=
  if env.hasProvider = false then []
  else
    match env.switchResult k with
    | Except.ok _ => [WalletRequest.switchChain (CHAINS k).chainIdHex]
    | Except.error c =>
        if c = some 4902 then
          [WalletRequest.switchChain (CHAINS k).chainIdHex,
           WalletRequest.addChain (CHAINS k).chainIdHex (CHAINS k).name (CHAINS k).currency
             (CHAINS k).rpcUrls [(CHAINS k).blockExplorer]]
        else [WalletRequest.switchChain (CHAINS k).chainIdHex]

theorem ensureNetwork_ok_eq (env : Env) (st : SessionState) (k : ChainKey) :
    (ensureNetwork env st k).2.2 = ensureOk env k := by
  unfold ensureNetwork ensureOk
  cases hp : env.hasProvider
  · simp
  · cases hs : env.switchResult k
    · rename_i c
      by_cases hc : c = some 4902
      · cases ha : env.addResult k <;> simp [hs, hc, ha]
      · simp [hs, hc]
    · simp [hs]

theorem ensureNetwork_trace_eq (env : Env) (st : SessionState) (k : ChainKey) :
    (ensureNetwork env st k).2.1 = ensureTrace env k := by
  unfold ensureNetwork ensureTrace
  cases hp : env.hasProvider
  · simp
  · cases hs : env.switchResult k
    · rename_i c
      by_cases hc : c = some 4902
      · cases ha : env.addResult k <;> simp [hs, hc, ha]
      · simp [hs, hc]
    · simp [hs]

theorem ensureTrace_cons (env : Env) (k : ChainKey) (hp : env.hasProvider = true) :
    ∃ t, ensureTrace env k = WalletRequest.switchChain (CHAINS k).chainIdHex :: t := by
  unfold ensureTrace
  cases hs : env.switchResult k
  · rename_i c
    by_cases hc : c = some 4902
    · exact ⟨[WalletRequest.addChain (CHAINS k).chainIdHex (CHAINS k).name (CHAINS k).currency
        (CHAINS k).rpcUrls [(CHAINS k).blockExplorer]], by simp [hp, hs, hc]⟩
    · exact ⟨[], by simp [hp, hs, hc]⟩
  · exact ⟨[], by simp [hp, hs]⟩

theorem sendTx_not_mem_ensureTrace (env : Env) (k : ChainKey) (d : String) (g : Nat) :
    WalletRequest.sendTransaction d g ∉ ensureTrace env k := by
  unfold ensureTrace
  cases hp : env.hasProvider
  · simp
  · cases hs : env.switchResult k
    · rename_i c
      by_cases hc : c = some 4902 <;> simp [hc]
    · simp

theorem requestAccounts_not_mem_ensureTrace (env : Env) (k : ChainKey) :
    WalletRequest.requestAccounts ∉ ensureTrace env k := by
  unfold ensureTrace
  cases hp : env.hasProvider
  · simp
  · cases hs : env.switchResult k
    · rename_i c
      by_cases hc : c = some 4902 <;> simp [hc]
    · simp

/-- The requests `deployContract` issues, fully characterized. -/
theorem deployContract_trace (env : Env) (st : SessionState) :
    (deployContract env st).2 =
      if env.hasProvider = false then []
      else if st.bytecode = "" ∨ jsLength (jsTrim st.bytecode) < 4 then []
      else if ensureOk env ChainKey.sepolia = false then ensureTrace env ChainKey.sepolia
      else ensureTrace env ChainKey.sepolia ++
        [WalletRequest.sendTransaction
          (if jsStartsWith st.bytecode ("0x") then st.bytecode else "0x" ++ st.bytecode)
          70000] := by
  unfold deployContract
  cases hp : env.hasProvider
  · simp
  · by_cases hb : st.bytecode = "" ∨ jsLength (jsTrim st.bytecode) < 4
    · simp [hb]
    · cases hok : ensureOk env ChainKey.sepolia
      · simp [hb, ensureNetwork_ok_eq, ensureNetwork_trace_eq, hok]
      · cases htx : env.sendTxResult <;> cases hw : env.waitResult <;>
          simp [hb, ensureNetwork_ok_eq, ensureNetwork_trace_eq, hok, htx, hw]

theorem ensureOk_hasProvider (env : Env) (k : ChainKey) (h : ensureOk env k = true) :
    env.hasProvider = true := by
  unfold ensureOk at h
  cases hp : env.hasProvider
  · rw [hp] at h; simp at h
  · rfl

theorem payload_ok_of_len (s : String) (hb : 4 ≤ jsLength (jsTrim s)) :
    ¬(s = "" ∨ jsLength (jsTrim s) < 4) := by
  rintro (h0 | hlt)
  · rw [h0] at hb; exact absurd hb (by decide)
  · omega

/-! ### Concrete fixtures -/

def st0 : SessionState :=
  { account := none
    status := ""
    bytecode := ""
    txHash := ""
    contractAddress := ""
    currentChainId := none
    target := ChainKey.sepolia }

def stPay : SessionState := { st0 with bytecode := "60006000f3" }

def stShort : SessionState := { st0 with bytecode := "ab" }

def stPrev : SessionState :=
  { st0 with bytecode := "ab", txHash := "0xdead", contractAddress := "0xbeef" }

def envOk : Env :=
  { hasProvider := true
    switchResult := fun _ => Except.ok ()
    addResult := fun _ => false
    accountsResult := Except.ok [("0xaccount")]
    sendTxResult := Except.ok ("0xhash")
    waitResult := Except.ok (some ("0xaddr")) }

def envAdd : Env :=
  { hasProvider := true
    switchResult := fun _ => Except.error (some 4902)
    addResult := fun _ => true
    accountsResult := Except.ok [("0xaccount")]
    sendTxResult := Except.ok ("0xhash")
    waitResult := Except.ok (some ("0xaddr")) }

def envFail : Env :=
  { hasProvider := true
    switchResult := fun _ => Except.error (some 4001)
    addResult := fun _ => false
    accountsResult := Except.error ("rejected")
    sendTxResult := Except.error ("rejected")
    waitResult := Except.error ("rejected") }

def envNoWait : Env := { envOk with waitResult := Except.error ("boom") }

/-! ### The claims -/

/-- Claim C1: every invocation of Deploy, regardless of the selected target
network key, forces the Sepolia network via EnsureNetwork before submitting
any transaction: a trace containing a transaction submission starts with the
switch request for Sepolia's chain id; if forcing Sepolia fails, nothing is
submitted; and the request trace does not depend on the selected target. -/
theorem C1_deploy_forces_sepolia (env : Env) (st : SessionState) :
    (∀ d g, WalletRequest.sendTransaction d g ∈ (deployContract env st).2 →
      (deployContract env st).2.head? =
        some (WalletRequest.switchChain (CHAINS ChainKey.sepolia).chainIdHex))
    ∧ (ensureOk env ChainKey.sepolia = false →
      ∀ d g, WalletRequest.sendTransaction d g ∉ (deployContract env st).2)
    ∧ (∀ k, (deployContract env { st with target := k }).2 = (deployContract env st).2) := by
  refine ⟨?_, ?_, ?_⟩
  · intro d g hmem
    rw [deployContract_trace] at hmem ⊢
    cases hp : env.hasProvider
    · simp [hp] at hmem
    · by_cases hb : st.bytecode = "" ∨ jsLength (jsTrim st.bytecode) < 4
      · simp [hp, hb] at hmem
      · cases hok : ensureOk env ChainKey.sepolia
        · simp [hp, hb, hok] at hmem
          exact absurd hmem (sendTx_not_mem_ensureTrace env ChainKey.sepolia d g)
        · obtain ⟨t, ht⟩ := ensureTrace_cons env ChainKey.sepolia hp
          simp [hp, hb, hok, ht]
  · intro hok d g hmem
    rw [deployContract_trace] at hmem
    cases hp : env.hasProvider
    · simp [hp] at hmem
    · by_cases hb : st.bytecode = "" ∨ jsLength (jsTrim st.bytecode) < 4
      · simp [hp, hb] at hmem
      · simp [hp, hb, hok] at hmem
        exact absurd hmem (sendTx_not_mem_ensureTrace env ChainKey.sepolia d g)
  · intro k
    rw [deployContract_trace, deployContract_trace]

/-- Witness for C1: a successful run submits after the Sepolia switch; a run
whose forced Sepolia switch is refused submits nothing. -/
theorem C1_witness :
    (deployContract envOk stPay).2.head? =
      some (WalletRequest.switchChain (CHAINS ChainKey.sepolia).chainIdHex)
    ∧ ∀ d g, WalletRequest.sendTransaction d g ∉ (deployContract envFail stPay).2 := by
  constructor
  · exact (C1_deploy_forces_sepolia envOk stPay).1 ("0x60006000f3") 70000 (by decide)
  · exact (C1_deploy_forces_sepolia envFail stPay).2.1 rfl

/-- Claim C2: with a provider present, a switch failure with code 4902 makes
EnsureNetwork issue exactly one add-chain request carrying the network's full
declared profile, and its result is the add request's result; a switch failure
with any other code produces no add-chain request and returns failure. -/
theorem C2_ensure_4902_add_path (env : Env) (st : SessionState) (k : ChainKey)
    (hp : env.hasProvider = true) :
    (∀ c, env.switchResult k = Except.error c → c = some 4902 →
      (ensureNetwork env st k).2.1 =
        [WalletRequest.switchChain (CHAINS k).chainIdHex,
         WalletRequest.addChain (CHAINS k).chainIdHex (CHAINS k).name (CHAINS k).currency
           (CHAINS k).rpcUrls [(CHAINS k).blockExplorer]]
      ∧ (ensureNetwork env st k).2.2 = env.addResult k)
    ∧ (∀ c, env.switchResult k = Except.error c → c ≠ some 4902 →
      (∀ r ∈ (ensureNetwork env st k).2.1, isAddChain r = false)
      ∧ (ensureNetwork env st k).2.2 = false) := by
  constructor
  · intro c hs hc
    simp only [ensureNetwork_trace_eq, ensureNetwork_ok_eq]
    unfold ensureTrace ensureOk
    cases ha : env.addResult k <;> simp [hp, hs, hc, ha]
  · intro c hs hc
    simp only [ensureNetwork_trace_eq, ensureNetwork_ok_eq]
    unfold ensureTrace ensureOk
    constructor
    · intro r hr
      simp [hp, hs, hc] at hr
      simp [hr, isAddChain]
    · simp [hp, hs, hc]

/-- Witness for C2: a 4902 switch failure with a granted add request yields
the switch request followed by the fully populated add request, and the add
request's success is returned. -/
theorem C2_witness :
    (ensureNetwork envAdd st0 ChainKey.sepolia).2.1 =
      [WalletRequest.switchChain (CHAINS ChainKey.sepolia).chainIdHex,
       WalletRequest.addChain (CHAINS ChainKey.sepolia).chainIdHex (CHAINS ChainKey.sepolia).name
         (CHAINS ChainKey.sepolia).currency (CHAINS ChainKey.sepolia).rpcUrls
         [(CHAINS ChainKey.sepolia).blockExplorer]]
    ∧ (ensureNetwork envAdd st0 ChainKey.sepolia).2.2 = envAdd.addResult ChainKey.sepolia :=
  (C2_ensure_4902_add_path envAdd st0 ChainKey.sepolia rfl).1 (some 4902) rfl rfl

/-- Claim C3: Connect never issues an account-access request when
EnsureNetwork for the currently selected target fails; when it succeeds,
Connect requests the accounts and stores the first returned account. -/
theorem C3_connect_network_first (env : Env) (st : SessionState) :
    (ensureOk env st.target = false →
      WalletRequest.requestAccounts ∉ (connectWallet env st).2)
    ∧ (ensureOk env st.target = true →
      WalletRequest.requestAccounts ∈ (connectWallet env st).2
      ∧ ∀ l, env.accountsResult = Except.ok l →
          (connectWallet env st).1.account = l.head?) := by
  constructor
  · intro hok
    cases hp : env.hasProvider
    · simp [connectWallet, hp]
    · simp [connectWallet, hp, ensureNetwork_ok_eq, ensureNetwork_trace_eq, hok,
        requestAccounts_not_mem_ensureTrace]
  · intro hok
    have hp := ensureOk_hasProvider env st.target hok
    constructor
    · cases hacc : env.accountsResult <;>
        simp [connectWallet, hp, ensureNetwork_ok_eq, hok, hacc]
    · intro l hl
      simp [connectWallet, hp, ensureNetwork_ok_eq, hok, hl]

/-- Witness for C3: a successful network check issues the account request and
the first returned account becomes the identity. -/
theorem C3_witness :
    WalletRequest.requestAccounts ∈ (connectWallet envOk st0).2
    ∧ (connectWallet envOk st0).1.account = some ("0xaccount") := by
  have h := (C3_connect_network_first envOk st0).2 rfl
  exact ⟨h.1, h.2 [("0xaccount")] rfl⟩

/-- Claim C4: a payload whose trimmed length is under 4 characters is rejected
locally: Deploy issues no wallet request at all, and (provider present) sets
the corrective instruction status. -/
theorem C4_short_payload_rejected (env : Env) (st : SessionState)
    (h : jsLength (jsTrim st.bytecode) < 4) :
    (deployContract env st).2 = []
    ∧ (env.hasProvider = true →
      (deployContract env st).1.status =
        "Colle un creation bytecode valide (0x...), ou clique \x27Remplir un bytecode de test\x27.") := by
  constructor
  · rw [deployContract_trace]
    simp [h]
  · intro hp
    unfold deployContract
    simp [hp, h]

/-- Witness for C4: the two-character payload is rejected with no request. -/
theorem C4_witness :
    (deployContract envOk stShort).2 = []
    ∧ (deployContract envOk stShort).1.status =
      "Colle un creation bytecode valide (0x...), ou clique \x27Remplir un bytecode de test\x27." := by
  have h := C4_short_payload_rejected envOk stShort (by decide)
  exact ⟨h.1, h.2 rfl⟩

/-- Claim C5: for every accepted payload, the submitted transaction data is
the payload with the 0x prefix prepended exactly when the payload does not
already start with 0x (and that is the only data ever submitted). -/
theorem C5_payload_normalization (env : Env) (st : SessionState)
    (hb : 4 ≤ jsLength (jsTrim st.bytecode))
    (hok : ensureOk env ChainKey.sepolia = true) :
    WalletRequest.sendTransaction
        (if jsStartsWith st.bytecode ("0x") then st.bytecode else "0x" ++ st.bytecode) 70000
      ∈ (deployContract env st).2
    ∧ ∀ d g, WalletRequest.sendTransaction d g ∈ (deployContract env st).2 →
        d = if jsStartsWith st.bytecode ("0x") then st.bytecode else "0x" ++ st.bytecode := by
  have hp := ensureOk_hasProvider env ChainKey.sepolia hok
  have hne := payload_ok_of_len st.bytecode hb
  constructor
  · rw [deployContract_trace]
    simp [hp, hne, hok]
  · intro d g hmem
    rw [deployContract_trace] at hmem
    simp [hp, hne, hok] at hmem
    rcases hmem with hmem | hmem
    · exact absurd hmem (sendTx_not_mem_ensureTrace env ChainKey.sepolia d g)
    · exact hmem.1

/-- Witness for C5: the unprefixed payload 60006000f3 is submitted as
0x60006000f3. -/
theorem C5_witness :
    WalletRequest.sendTransaction ("0x60006000f3") 70000 ∈ (deployContract envOk stPay).2 := by
  have h := (C5_payload_normalization envOk stPay (by decide) rfl).1
  have he : (if jsStartsWith stPay.bytecode ("0x") then stPay.bytecode
      else "0x" ++ stPay.bytecode) = "0x60006000f3" := by decide
  rw [he] at h
  exact h

/-- Claim C6: if confirmation fails after submission, the failure is caught
into a status carrying the underlying message text, and the already-recorded
transaction hash is left unchanged. -/
theorem C6_post_submission_failure (env : Env) (st : SessionState) (hsh msg : String)
    (hb : 4 ≤ jsLength (jsTrim st.bytecode))
    (hok : ensureOk env ChainKey.sepolia = true)
    (htx : env.sendTxResult = Except.ok hsh)
    (hw : env.waitResult = Except.error msg) :
    (deployContract env st).1.status = "Erreur: " ++ msg
    ∧ (deployContract env st).1.txHash = hsh := by
  have hp := ensureOk_hasProvider env ChainKey.sepolia hok
  have hne := payload_ok_of_len st.bytecode hb
  unfold deployContract
  simp [hp, hne, ensureNetwork_ok_eq, hok, htx, hw]

/-- Witness for C6: a failed confirmation reports the underlying message and
keeps the recorded hash. -/
theorem C6_witness :
    (deployContract envNoWait stPay).1.status = "Erreur: " ++ "boom"
    ∧ (deployContract envNoWait stPay).1.txHash = "0xhash" :=
  C6_post_submission_failure envNoWait stPay ("0xhash") ("boom") (by decide) rfl rfl rfl

/-- Claim C7: the explorer base URL is Sepolia's URL when the observed chain
id is 11155111, Mainnet's when it is 1, and otherwise the selected target
network's URL. -/
theorem C7_explorer_base (cid : Option Nat) (t : ChainKey) :
    explorerBase cid t =
      if cid = some 11155111 then "https://sepolia.etherscan.io"
      else if cid = some 1 then "https://etherscan.io"
      else (CHAINS t).blockExplorer := by
  unfold explorerBase
  rfl

/-- Claim C8: Reset sets payload, status, transaction hash and contract
address to empty in one step and leaves the account, the target and the
observed chain id unchanged. -/
theorem C8_reset_clears (st : SessionState) :
    (resetSession st).bytecode = "" ∧ (resetSession st).status = ""
    ∧ (resetSession st).txHash = "" ∧ (resetSession st).contractAddress = ""
    ∧ (resetSession st).account = st.account
    ∧ (resetSession st).target = st.target
    ∧ (resetSession st).currentChainId = st.currentChainId := by
  simp [resetSession]

/-- Counterexample to C9 as stated: after Disconnect at a state holding a
transaction hash, the status is the fixed disconnect message, not empty, and
the transaction hash is not reset to empty. -/
theorem C9_counterexample :
    ¬ ((disconnectWallet stPrev).1.status = "" ∧ (disconnectWallet stPrev).1.txHash = "") := by
  decide

/-- Claim C9 (amended): Disconnect is purely local — it issues no
wallet-provider request — sets the stored account to none and the status to
the fixed disconnect message, and leaves payload, transaction hash, contract
address, target and observed chain id unchanged. -/
theorem C9_disconnect_local (st : SessionState) :
    (disconnectWallet st).1.account = none
    ∧ (disconnectWallet st).1.status = "Déconnecté."
    ∧ (disconnectWallet st).1.bytecode = st.bytecode
    ∧ (disconnectWallet st).1.txHash = st.txHash
    ∧ (disconnectWallet st).1.contractAddress = st.contractAddress
    ∧ (disconnectWallet st).1.target = st.target
    ∧ (disconnectWallet st).1.currentChainId = st.currentChainId
    ∧ (disconnectWallet st).2 = [] := by
  simp [disconnectWallet]

/-- Claim C10: Deploy clears status, transaction hash and contract address
before its provider and payload checks, so a locally rejected invocation
still leaves the transaction hash and contract address empty (and issues no
request). -/
theorem C10_deploy_clears_first (env : Env) (st : SessionState)
    (h : env.hasProvider = false ∨ jsLength (jsTrim st.bytecode) < 4) :
    (deployContract env st).1.txHash = ""
    ∧ (deployContract env st).1.contractAddress = ""
    ∧ (deployContract env st).2 = [] := by
  unfold deployContract
  rcases h with hp | hlt
  · simp [hp]
  · cases hp : env.hasProvider
    · simp [hp]
    · simp [hp, hlt]

/-- Witness for C10: a short-payload invocation after a previous successful
deploy erases the recorded hash and address. -/
theorem C10_witness :
    (deployContract envOk stPrev).1.txHash = ""
    ∧ (deployContract envOk stPrev).1.contractAddress = ""
    ∧ (deployContract envOk stPrev).2 = [] :=
  C10_deploy_clears_first envOk stPrev (Or.inr (by decide))

end FarcasterMini
